import Mathlib

/-!
Shallow embedding of `src/src/lib.rs` (crate `fft_rust_in_python`): a small
numeric toolkit exposing CSV ingestion, forward FFT, FFT shift, magnitude,
frequency-bin generation and plot rendering to Python via pyo3.

Modelling conventions:
* Rust `Vec<f64>` is modelled as `List ℚ` where the claims only involve exact
  dyadic values (shift, frequency bins, CSV), and as `List ℝ` where a square
  root is taken (`compute_magnitude`).
* Rust `Result<_, Box<dyn Error>>` is modelled as `Except String _`.
* A Rust panic (out-of-range `rotate_left`) is modelled as `Option.none`;
  functions whose body can panic but whose `Result` error branch is
  syntactically unreachable are modelled as `Option`-valued.
-/

namespace FftRust

/-- Rust `slice::rotate_left(mid)`: rotates so the element at index `mid`
moves to index 0; panics (modelled as `none`) when `mid > len`. -/
def rotateLeft (l : List α) (mid : Nat) : Option (List α) :=
  if mid ≤ l.length then some (l.drop mid ++ l.take mid) else none

/-- Function `fft_shift(real, imag)` from `lib.rs` lines 50–62: `half = real.len() / 2`;
both vectors are rotated left by `half` (note: `half` is computed from the
real vector's length only). The `Result` error branch is unreachable; the
only failure mode is the `rotate_left` panic on the imaginary vector. -/
def fft_shift (real imag : List α) : Option (List α × List α) :=
  let half := real.length / 2
  match rotateLeft real half, rotateLeft imag half with
  | some r, some i => some (r, i)
  | _, _ => none

/-- Function `fft_shift_frequencies(data)` from `lib.rs` lines 98–106: rotates the
vector left by `len / 2`. -/
def fft_shift_frequencies (data : List α) : Option (List α) :=
  rotateLeft data (data.length / 2)

/-- Function `compute_fft(data)` from `lib.rs` lines 31–46. The call
`fft.process(&mut buffer)` is rustfft's in-place forward FFT on a
`&mut [Complex<f64>]` slice; a slice mutation cannot change the length, so we
abstract it as a parameter `process` together with the length-preservation
fact guaranteed by the slice type (stated as a hypothesis in the theorems).
A complex number is a `(re, im)` pair. The function itself never produces an
error: it ends in `Ok((real, imag))` with no fallible operation before it. -/
def compute_fft (process : List (ℚ × ℚ) → List (ℚ × ℚ)) (data : List ℚ) :
    Except String (List ℚ × List ℚ) :=
  let buffer := data.map (fun x => (x, (0 : ℚ)))
  let out := process buffer
  Except.ok (out.map Prod.fst, out.map Prod.snd)

/-- Function `compute_magnitude(real, imag)` from `lib.rs` lines 65–75: explicit
length check, then elementwise `sqrt(re^2 + im^2)` over the zipped pair. -/
noncomputable def compute_magnitude (real imag : List ℝ) :
    Except String (List ℝ) :=
  if real.length ≠ imag.length then
    Except.error "Real and imaginary parts must have the same length."
  else
    Except.ok (List.zipWith (fun re im => Real.sqrt (re ^ 2 + im ^ 2)) real imag)

/-- Function `generate_frequencies(len, sampling_interval)` from `lib.rs` lines 78–95:
validation `len == 0 || sampling_interval <= 0.0`, then for each
`k ∈ 0..len`, `k / total_duration` when `k < len / 2` (integer division) and
`-(len - k) / total_duration` otherwise, with
`total_duration = len * sampling_interval`. -/
def generate_frequencies (len : Nat) (sampling_interval : ℚ) :
    Except String (List ℚ) :=
  if len = 0 ∨ sampling_interval ≤ 0 then
    Except.error
      "Length must be positive and sampling interval must be greater than zero."
  else
    let total_duration : ℚ := (len : ℚ) * sampling_interval
    Except.ok ((List.range len).map fun k =>
      if k < len / 2 then (k : ℚ) / total_duration
      else -((len : ℚ) - (k : ℚ)) / total_duration)

/-- Function `read_csv(file_path)` from `lib.rs` lines 12–28, modelled at the record
level: the csv reader is configured with `has_headers(true)`, so `results`
is the list of post-header records, each either a well-formed record (a list
of string fields) or `none` for a CSV-format error on that record (the
`result?` in the loop). `trimF` models the std-library `str::trim` and
`parseF` models `str::parse::<f64>` (`none` = parse error). A record with at
least two fields contributes `(parseF (trimF field0), parseF (trimF field1))`
in file order; shorter records are skipped; any failure aborts the whole
call with no partial result. -/
def read_csv (results : List (Option (List String)))
    (trimF : String → String) (parseF : String → Option ℚ) :
    Option (List ℚ × List ℚ) :=
  match results with
  | [] => some ([], [])
  | none :: _ => none
  | some (a :: b :: _) :: rest =>
    match parseF (trimF a), parseF (trimF b) with
    | some x, some y =>
      match read_csv rest trimF parseF with
      | some (time, measured) => some (x :: time, y :: measured)
      | none => none
    | _, _ => none
  | some _ :: rest => read_csv rest trimF parseF

/-- All-or-nothing sequencing of a list of fallible results. -/
def sequenceOpt : List (Option α) → Option (List α)
  | [] => some []
  | o :: rest => o.bind fun x => (sequenceOpt rest).map fun xs => x :: xs

/-- All-or-nothing traversal of a list with a fallible function. -/
def traverseOpt (f : α → Option β) : List α → Option (List β)
  | [] => some []
  | x :: rest => (f x).bind fun y => (traverseOpt f rest).map fun ys => y :: ys

/-- Parsing of one (≥ 2 field) record per the spec: fields 0 and 1, trimmed,
parsed as doubles. -/
def parseRecord (trimF : String → String) (parseF : String → Option ℚ)
    (r : List String) : Option (ℚ × ℚ) :=
  r[0]?.bind fun a => r[1]?.bind fun b =>
    (parseF (trimF a)).bind fun x => (parseF (trimF b)).map fun y => (x, y)

/-- Specification-side restatement of the CSV contract, following the
spec's words: sequence the record results (any CSV-format error fails the
whole call), keep only the records with at least two fields, parse fields
0 and 1 of each (after trimming) in file order (any parse error fails the
whole call), and return the two column lists. -/
def read_csv_spec (results : List (Option (List String)))
    (trimF : String → String) (parseF : String → Option ℚ) :
    Option (List ℚ × List ℚ) :=
  (sequenceOpt results).bind fun records =>
    ((traverseOpt (parseRecord trimF parseF)
        (records.filter fun r => 2 ≤ r.length)).map
      fun pairs => (pairs.map Prod.fst, pairs.map Prod.snd))

/-- A tiny concrete model of `str::parse::<f64>`, enough for the spec's
worked example. -/
def parseSmall (s : String) : Option ℚ :=
  if s = "0" then some 0
  else if s = "1" then some 1
  else if s = "2" then some 2
  else none

/-- Color type passed to the PNG encoder (`image::ExtendedColorType`). -/
inductive ColorType where
  | rgb8 : ColorType
  deriving DecidableEq, Repr

/-- An encoded raster image, as observable through the claims: dimensions and
color type of the PNG byte buffer returned by `generate_plot`. -/
structure Png where
  width : Nat
  height : Nat
  color : ColorType
  deriving DecidableEq, Repr

/-- Modelled from the spec: the plotters chart stage of `generate_plot`
(`build_cartesian_2d` + mesh + series drawing, `lib.rs` lines 122–146) is
not part of this repository. The spec says the renderer "fails if the point
sequence is empty (min/max over an empty sequence is undefined)" and that
there is no other failure for valid input, so the stage is modelled as
failing exactly on empty input. -/
def chartStage (data : List (ℚ × ℚ)) : Except String Unit :=
  if data.isEmpty then Except.error "empty point sequence" else Except.ok ()

/-- Modelled from the spec: `image::codecs::png::PngEncoder::write_image`
(`lib.rs` lines 151–157) is library code. Per the spec the output is "the
chart encoded as a PNG byte buffer (color type: 8-bit RGB, no alpha
channel)"; encoding succeeds when the buffer holds exactly
`width * height * 3` bytes for `Rgb8`. -/
def pngEncode (buffer : List Nat) (width height : Nat) (color : ColorType) :
    Except String Png :=
  match color with
  | ColorType.rgb8 =>
    if buffer.length = width * height * 3 then
      Except.ok ⟨width, height, color⟩
    else Except.error "invalid buffer length"

/-- Function `generate_plot(data, x_label, y_label, title)` from `lib.rs` lines
110–159: fixed 1024×768 canvas, an RGB byte buffer of `width * height * 3`
zero bytes, the chart stage (spec-modelled above), then PNG encoding with
`ExtendedColorType::Rgb8`. -/
def generate_plot (data : List (ℚ × ℚ))
    (x_label y_label title : String) : Except String Png :=
  let width := 1024
  let height := 768
  let buffer : List Nat := List.replicate (width * height * 3) 0
  match chartStage data with
  | Except.error e => Except.error e
  | Except.ok _ => pngEncode buffer width height ColorType.rgb8

/-- Function `generate_plot_py(x, y, x_label, y_label, title)` from `lib.rs` lines
195–205: zips the two coordinate vectors into a point list (Rust `zip` stops
at the shorter vector) and calls `generate_plot`. -/
def generate_plot_py (x y : List ℚ)
    (x_label y_label title : String) : Except String Png :=
  generate_plot (x.zip y) x_label y_label title

/-! ### Helper lemmas about `rotateLeft` and the two shift functions -/

theorem rotateLeft_of_le {l : List α} {mid : ℕ} (h : mid ≤ l.length) :
    rotateLeft l mid = some (l.rotate mid) := by
  rw [rotateLeft, if_pos h, List.rotate_eq_drop_append_take h]

theorem rotateLeft_of_gt {l : List α} {mid : ℕ} (h : l.length < mid) :
    rotateLeft l mid = none := by
  rw [rotateLeft, if_neg (by omega)]

theorem fft_shift_frequencies_eq (data : List α) :
    fft_shift_frequencies data = some (data.rotate (data.length / 2)) :=
  rotateLeft_of_le (Nat.div_le_self _ _)

theorem fft_shift_eq {real imag : List α} (h : real.length / 2 ≤ imag.length) :
    fft_shift real imag =
      some (real.rotate (real.length / 2), imag.rotate (real.length / 2)) := by
  simp only [fft_shift, rotateLeft_of_le (Nat.div_le_self real.length 2),
    rotateLeft_of_le h]

theorem fft_shift_none {real imag : List α} (h : imag.length < real.length / 2) :
    fft_shift real imag = none := by
  simp only [fft_shift, rotateLeft_of_le (Nat.div_le_self real.length 2),
    rotateLeft_of_gt h]

/-! ### Claims -/

/-- Claim C1: for every sequence (or equal-length real/imaginary pair) of length
`L`, `fft_shift` and `fft_shift_frequencies` return the input left-rotated
circularly by `⌊L/2⌋` positions; the element formerly at index `⌊L/2⌋` is at
index 0 of the output; a zero-length or single-element sequence is returned
unchanged, and the operations never fail in these cases. -/
theorem shift_rotates_by_half_len :
    (∀ x : List ℚ, fft_shift_frequencies x = some (x.rotate (x.length / 2)))
    ∧ (∀ real imag : List ℚ, real.length = imag.length →
        fft_shift real imag =
          some (real.rotate (real.length / 2), imag.rotate (imag.length / 2)))
    ∧ (∀ x : List ℚ, 0 < x.length →
        (x.rotate (x.length / 2))[0]? = x[x.length / 2]?)
    ∧ (∀ x : List ℚ, x.length ≤ 1 → fft_shift_frequencies x = some x) := by
  refine ⟨fun x => fft_shift_frequencies_eq x, fun real imag h => ?_, fun x hx => ?_, fun x hx => ?_⟩
  · rw [fft_shift_eq (h ▸ Nat.div_le_self _ _), h]
  · rw [List.getElem?_rotate hx, Nat.zero_add,
      Nat.mod_eq_of_lt (Nat.div_lt_self hx Nat.one_lt_two)]
  · rw [fft_shift_frequencies_eq x, Nat.div_eq_of_lt (by omega), List.rotate_zero]

/-- Witness for C1 at a concrete equal-length pair. -/
theorem shift_rotates_by_half_len_witness :
    fft_shift ([10, 20, 30, 40] : List ℚ) [1, 2, 3, 4] =
      some ([30, 40, 10, 20], [3, 4, 1, 2]) := by
  have h := shift_rotates_by_half_len.2.1 [10, 20, 30, 40] [1, 2, 3, 4] rfl
  rw [h]
  norm_num [List.rotate]

/-- Claim C2 counterexample: with `real = [0,1,2,3]` and `imag = [10,11,12]`, the
code rotates the imaginary vector by `⌊len(real)/2⌋ = 2`, giving
`[12,10,11]`, whereas the claim predicts a rotation by
`⌊len(imag)/2⌋ = 1`, i.e. `[11,12,10]`. -/
theorem fft_shift_independent_rotation_cex :
    fft_shift ([0, 1, 2, 3] : List ℚ) [10, 11, 12] =
      some ([2, 3, 0, 1], [12, 10, 11])
    ∧ ([10, 11, 12] : List ℚ).rotate (([10, 11, 12] : List ℚ).length / 2) ≠
        [12, 10, 11] := by
  constructor
  · rw [fft_shift_eq (by norm_num)]
    norm_num [List.rotate]
  · norm_num [List.rotate]

/-- Claim C2 (amended): `fft_shift` rotates both vectors by the same offset
`⌊len(real)/2⌋`, computed from the real vector's length only; when that
offset exceeds the imaginary vector's length the call panics
(modelled as `none`) instead of returning. -/
theorem fft_shift_uses_real_half :
    ∀ real imag : List ℚ,
      (real.length / 2 ≤ imag.length →
        fft_shift real imag =
          some (real.rotate (real.length / 2), imag.rotate (real.length / 2)))
      ∧ (imag.length < real.length / 2 → fft_shift real imag = none) :=
  fun _ _ => ⟨fun h => fft_shift_eq h, fun h => fft_shift_none h⟩

/-- Witness for the amended C2 at a concrete mismatched-length pair. -/
theorem fft_shift_uses_real_half_witness :
    fft_shift ([0, 1, 2, 3] : List ℚ) [10, 11, 12] =
      some (([0, 1, 2, 3] : List ℚ).rotate (([0, 1, 2, 3] : List ℚ).length / 2),
        ([10, 11, 12] : List ℚ).rotate (([0, 1, 2, 3] : List ℚ).length / 2)) :=
  (fft_shift_uses_real_half [0, 1, 2, 3] [10, 11, 12]).1 (by norm_num)

/-- Claim C3: `generate_frequencies N T` fails with the validation error iff
`N = 0 ∨ T ≤ 0`; otherwise it returns exactly `N` values with
`value k = k / (N·T)` for `k < N/2` (integer division) and
`-(N - k) / (N·T)` for `k ≥ N/2`; in particular
`generate_frequencies 4 1 = [0, 1/4, -1/2, -1/4]` and shifting that result
yields `[-1/2, -1/4, 0, 1/4]`. -/
theorem generate_frequencies_ok :
    (∀ (len : ℕ) (T : ℚ),
      generate_frequencies len T =
          Except.error
            "Length must be positive and sampling interval must be greater than zero." ↔
        (len = 0 ∨ T ≤ 0))
    ∧ (∀ (len : ℕ) (T : ℚ) (l : List ℚ),
        generate_frequencies len T = Except.ok l →
        l.length = len ∧ ∀ k : ℕ, k < len →
          l[k]? = some (if k < len / 2 then (k : ℚ) / ((len : ℚ) * T)
            else -((len : ℚ) - (k : ℚ)) / ((len : ℚ) * T)))
    ∧ generate_frequencies 4 1 = Except.ok [0, 1/4, -1/2, -1/4]
    ∧ fft_shift_frequencies [(0 : ℚ), 1/4, -1/2, -1/4] =
        some [-1/2, -1/4, 0, 1/4] := by
  refine ⟨fun len T => ?_, fun len T l h => ?_, ?_, ?_⟩
  · by_cases hc : len = 0 ∨ T ≤ 0 <;> simp [generate_frequencies, hc]
  · by_cases hc : len = 0 ∨ T ≤ 0
    · simp [generate_frequencies, hc] at h
    · rw [generate_frequencies, if_neg hc] at h
      obtain rfl : _ = l := Except.ok.inj h
      refine ⟨by simp, fun k hk => ?_⟩
      rw [List.getElem?_map, List.getElem?_range hk]
      rfl
  · norm_num [generate_frequencies, List.range_succ]
  · rw [fft_shift_frequencies_eq]
    norm_num [List.rotate]

/-- Witness for C3 at `N = 4`, `T = 1`. -/
theorem generate_frequencies_ok_witness :
    ([0, 1/4, -1/2, -1/4] : List ℚ).length = 4 :=
  (generate_frequencies_ok.2.1 4 1 [0, 1/4, -1/2, -1/4]
    (by norm_num [generate_frequencies, List.range_succ])).1

/-- Claim C4: `compute_magnitude real imag` fails with the length-mismatch error
iff the two sequences differ in length; on equal lengths it returns a list
of the same length whose element `i` is `√(real[i]² + imag[i]²)`; in
particular `compute_magnitude [3] [4] = [5]`. -/
theorem compute_magnitude_ok :
    (∀ real imag : List ℝ,
      compute_magnitude real imag =
          Except.error "Real and imaginary parts must have the same length." ↔
        real.length ≠ imag.length)
    ∧ (∀ real imag l : List ℝ, compute_magnitude real imag = Except.ok l →
        real.length = imag.length ∧ l.length = real.length ∧
        ∀ (k : ℕ) (h1 : k < real.length) (h2 : k < imag.length)
          (h3 : k < l.length),
          l.get ⟨k, h3⟩ =
            Real.sqrt ((real.get ⟨k, h1⟩) ^ 2 + (imag.get ⟨k, h2⟩) ^ 2))
    ∧ compute_magnitude [3] [4] = Except.ok [5] := by
  refine ⟨fun real imag => ?_, fun real imag l h => ?_, ?_⟩
  · by_cases hl : real.length = imag.length <;> simp [compute_magnitude, hl]
  · by_cases hl : real.length = imag.length
    · rw [compute_magnitude, if_neg (by omega)] at h
      obtain rfl : _ = l := Except.ok.inj h
      refine ⟨hl, by simp [hl], fun k h1 h2 h3 => ?_⟩
      simp [List.get_eq_getElem, List.getElem_zipWith]
    · simp [compute_magnitude, hl] at h
  · have h25 : Real.sqrt ((3 : ℝ) ^ 2 + 4 ^ 2) = 5 := by
      have h : ((3 : ℝ) ^ 2 + 4 ^ 2) = 5 ^ 2 := by norm_num
      rw [h, Real.sqrt_sq (by norm_num : (0 : ℝ) ≤ 5)]
    simp [compute_magnitude, h25]

/-- Witness for C4 at `real = [3]`, `imag = [4]`. -/
theorem compute_magnitude_ok_witness :
    ([5] : List ℝ).length = ([3] : List ℝ).length :=
  (compute_magnitude_ok.2.1 [3] [4] [5] compute_magnitude_ok.2.2).2.1

/-- Claim C5: `read_csv` (on post-header records) equals the declarative CSV
contract: records with fewer than two fields are silently skipped, fields 0
and 1 of the remaining records are trimmed and parsed as doubles in file
order, and any CSV-format or parse failure fails the whole call with no
partial result; on the spec's example (`0,1` / `1,2` / `2`) it yields
`time = [0, 1]`, `values = [1, 2]`. -/
theorem read_csv_matches_contract :
    (∀ (results : List (Option (List String))) (trimF : String → String)
      (parseF : String → Option ℚ),
      read_csv results trimF parseF = read_csv_spec results trimF parseF)
    ∧ read_csv [some ["0", "1"], some ["1", "2"], some ["2"]] id parseSmall =
        some ([0, 1], [1, 2]) := by
  constructor
  · intro results trimF parseF
    induction results with
    | nil => rfl
    | cons r rest IH =>
      cases r with
      | none => simp [read_csv, read_csv_spec, sequenceOpt]
      | some record =>
        rw [read_csv_spec, sequenceOpt]
        cases hm : sequenceOpt rest with
        | none =>
          have hspec : read_csv_spec rest trimF parseF = none := by
            rw [read_csv_spec, hm]; rfl
          rw [hspec] at IH
          match record with
          | [] => simp [read_csv, IH]
          | [a] => simp [read_csv, IH]
          | a :: b :: t =>
            rw [show read_csv (some (a :: b :: t) :: rest) trimF parseF =
              (match parseF (trimF a), parseF (trimF b) with
              | some x, some y =>
                (match read_csv rest trimF parseF with
                | some (time, measured) => some (x :: time, y :: measured)
                | none => none)
              | _, _ => none) from rfl]
            cases parseF (trimF a) <;> cases parseF (trimF b) <;> simp [IH]
        | some recs =>
          have hspec : read_csv_spec rest trimF parseF =
              ((traverseOpt (parseRecord trimF parseF)
                  (recs.filter fun r => 2 ≤ r.length)).map
                fun pairs => (pairs.map Prod.fst, pairs.map Prod.snd)) := by
            rw [read_csv_spec, hm]; rfl
          rw [hspec] at IH
          match record with
          | [] => simp [read_csv, IH, List.filter_cons]
          | [a] => simp [read_csv, IH, List.filter_cons]
          | a :: b :: t =>
            rw [show read_csv (some (a :: b :: t) :: rest) trimF parseF =
              (match parseF (trimF a), parseF (trimF b) with
              | some x, some y =>
                (match read_csv rest trimF parseF with
                | some (time, measured) => some (x :: time, y :: measured)
                | none => none)
              | _, _ => none) from rfl]
            simp only [Option.some_bind, List.filter_cons]
            cases hpa : parseF (trimF a) with
            | none => simp [traverseOpt, parseRecord, hpa]
            | some x =>
              cases hpb : parseF (trimF b) with
              | none => simp [traverseOpt, parseRecord, hpa, hpb]
              | some y =>
                cases hg : traverseOpt (parseRecord trimF parseF)
                    (recs.filter fun r => 2 ≤ r.length) with
                | none =>
                  rw [hg] at IH
                  simp [IH, hg, traverseOpt, parseRecord, hpa, hpb]
                | some prs =>
                  rw [hg] at IH
                  simp [IH, hg, traverseOpt, parseRecord, hpa, hpb]
  · simp [read_csv, parseSmall]

/-! ### Helper lemmas about `generate_plot` -/

theorem generate_plot_empty (xl yl t : String) :
    generate_plot [] xl yl t = Except.error "empty point sequence" := rfl

theorem generate_plot_nonempty {data : List (ℚ × ℚ)} (h : data ≠ [])
    (xl yl t : String) :
    generate_plot data xl yl t = Except.ok ⟨1024, 768, ColorType.rgb8⟩ := by
  have hcs : chartStage data = Except.ok () := by
    rw [chartStage, if_neg (by simpa using h)]
  simp only [generate_plot, hcs, pngEncode]
  rw [List.length_replicate, if_pos rfl]

/-- Claim C6: `compute_fft` returns two sequences each of exactly the input
length — rustfft's `process` operates in place on a `&mut [Complex<f64>]`
slice, which cannot change the length (the hypothesis on `process`) — it
returns two empty sequences for empty input, and it never fails. -/
theorem compute_fft_preserves_length :
    ∀ (process : List (ℚ × ℚ) → List (ℚ × ℚ)),
      (∀ l, (process l).length = l.length) →
      ∀ data : List ℚ, ∃ real imag,
        compute_fft process data = Except.ok (real, imag)
        ∧ real.length = data.length ∧ imag.length = data.length
        ∧ (data = [] → real = [] ∧ imag = []) := by
  intro process hp data
  refine ⟨_, _, rfl, by simp [hp], by simp [hp], ?_⟩
  rintro rfl
  have h0 : process [] = [] := List.length_eq_zero.mp (by simpa using hp [])
  simp [h0]

/-- Witness for C6 with the identity as the length-preserving transform. -/
theorem compute_fft_preserves_length_witness :
    ∃ real imag, compute_fft id [1, 2, 3] = Except.ok (real, imag)
      ∧ real.length = ([1, 2, 3] : List ℚ).length
      ∧ imag.length = ([1, 2, 3] : List ℚ).length
      ∧ (([1, 2, 3] : List ℚ) = [] → real = [] ∧ imag = []) :=
  compute_fft_preserves_length id (fun _ => rfl) [1, 2, 3]

/-- Claim C7: applying the shift twice rotates left by `2⌊L/2⌋` in total, and the
double shift is the identity on length-`L` sequences iff `L` is even or
`L ≤ 1`. -/
theorem double_shift_identity_iff :
    (∀ x : List ℚ, (fft_shift_frequencies x).bind fft_shift_frequencies =
      some (x.rotate (2 * (x.length / 2))))
    ∧ ∀ L : ℕ,
      (∀ x : List ℚ, x.length = L →
        (fft_shift_frequencies x).bind fft_shift_frequencies = some x) ↔
      (L % 2 = 0 ∨ L ≤ 1) := by
  have h1 : ∀ x : List ℚ,
      (fft_shift_frequencies x).bind fft_shift_frequencies =
        some (x.rotate (2 * (x.length / 2))) := by
    intro x
    rw [fft_shift_frequencies_eq x, Option.some_bind, fft_shift_frequencies_eq,
      List.length_rotate, List.rotate_rotate, two_mul]
  refine ⟨h1, fun L => ⟨fun hid => ?_, fun hL x hx => ?_⟩⟩
  · by_contra hc
    push_neg at hc
    obtain ⟨hodd, hL1⟩ := hc
    set x : List ℚ := (List.range L).map (fun n : ℕ => (n : ℚ)) with hxdef
    have hxlen : x.length = L := by simp [hxdef]
    have hx2 := hid x hxlen
    rw [h1 x] at hx2
    have hrot : x.rotate (2 * (x.length / 2)) = x := Option.some.inj hx2
    have h2L : 2 * (L / 2) = L - 1 := by omega
    have hL0 : (0 : ℕ) < x.length := by omega
    have hidx := congrArg (fun l : List ℚ => l[0]?) hrot
    simp only at hidx
    rw [List.getElem?_rotate hL0, hxlen, h2L, Nat.zero_add,
      Nat.mod_eq_of_lt (by omega)] at hidx
    have ha : x[L - 1]? = some ((L - 1 : ℕ) : ℚ) := by
      rw [hxdef, List.getElem?_map, List.getElem?_range (by omega)]; rfl
    have hb : x[0]? = some ((0 : ℕ) : ℚ) := by
      rw [hxdef, List.getElem?_map, List.getElem?_range (by omega)]; rfl
    rw [ha, hb] at hidx
    have hcast : ((L - 1 : ℕ) : ℚ) = ((0 : ℕ) : ℚ) := Option.some.inj hidx
    have : (L - 1 : ℕ) = 0 := Nat.cast_inj.mp hcast
    omega
  · rw [h1 x]
    rcases hL with heven | hsmall
    · have h2 : 2 * (x.length / 2) = x.length := by rw [hx]; omega
      rw [h2, List.rotate_length]
    · have h2 : 2 * (x.length / 2) = 0 := by rw [hx]; omega
      rw [h2, List.rotate_zero]

/-- Witness for C7 at the even length `L = 4`. -/
theorem double_shift_identity_iff_witness :
    (fft_shift_frequencies ([1, 2, 3, 4] : List ℚ)).bind
      fft_shift_frequencies = some [1, 2, 3, 4] :=
  (double_shift_identity_iff.2 4).mpr (Or.inl rfl) [1, 2, 3, 4] rfl

/-- Claim C8 counterexample: with `x = [1, 2]` and `y = [3]` the Python-facing
plot entry point silently zips down to the single point `(1, 3)` and
succeeds, instead of treating the mismatched lengths as a usage error. -/
theorem generate_plot_py_truncates_cex :
    ([1, 2] : List ℚ).zip ([3] : List ℚ) = [(1, 3)]
    ∧ generate_plot_py [1, 2] [3] "x" "y" "t" =
        Except.ok ⟨1024, 768, ColorType.rgb8⟩ := by
  refine ⟨rfl, ?_⟩
  rw [generate_plot_py]
  exact generate_plot_nonempty (by simp) "x" "y" "t"

/-- Claim C8 (amended): `compute_magnitude` rejects mismatched paired lengths,
but the plot-rendering entry point `generate_plot_py` does not: it silently
truncates the x/y pair to the shorter length via `zip` (a second exception
beside the shift of §4.3). -/
theorem paired_length_policy :
    (∀ real imag : List ℝ, real.length ≠ imag.length →
      compute_magnitude real imag =
        Except.error "Real and imaginary parts must have the same length.")
    ∧ (∀ (x y : List ℚ) (xl yl t : String),
        generate_plot_py x y xl yl t = generate_plot (x.zip y) xl yl t
        ∧ (x.zip y).length = min x.length y.length) := by
  refine ⟨fun real imag h => ?_, fun x y xl yl t => ⟨rfl, ?_⟩⟩
  · rw [compute_magnitude, if_pos h]
  · simp [List.length_zip]

/-- Witness for the amended C8 at a concrete mismatched pair. -/
theorem paired_length_policy_witness :
    compute_magnitude [0] [] =
      Except.error "Real and imaginary parts must have the same length." :=
  paired_length_policy.1 [0] [] (by simp)

/-- Claim C9: `generate_plot` fails exactly when the point sequence is empty, and
on success it returns a fixed-size 1024×768 PNG with 8-bit RGB color and no
alpha channel (the chart stage and the PNG encoder are modelled from the
spec, see `chartStage` and `pngEncode`). -/
theorem generate_plot_dimensions :
    ∀ (data : List (ℚ × ℚ)) (xl yl t : String),
      (data = [] →
        generate_plot data xl yl t = Except.error "empty point sequence")
      ∧ (data ≠ [] →
        generate_plot data xl yl t =
          Except.ok ⟨1024, 768, ColorType.rgb8⟩) :=
  fun data xl yl t =>
    ⟨fun h => h ▸ generate_plot_empty xl yl t,
     fun h => generate_plot_nonempty h xl yl t⟩

/-- Witness for C9 at a concrete one-point sequence. -/
theorem generate_plot_dimensions_witness :
    generate_plot [((1 : ℚ), (2 : ℚ))] "x" "y" "t" =
      Except.ok ⟨1024, 768, ColorType.rgb8⟩ :=
  (generate_plot_dimensions [(1, 2)] "x" "y" "t").2 (by simp)

/-- Claim C10: the declared `Result` error branches of `compute_fft`, `fft_shift`
and `fft_shift_frequencies` are unreachable: `compute_fft` always returns
`Ok`, `fft_shift` returns a value whenever `⌊len(real)/2⌋ ≤ len(imag)`, and
`fft_shift_frequencies` always returns a value. -/
theorem fft_error_branches_unreachable :
    (∀ (process : List (ℚ × ℚ) → List (ℚ × ℚ)) (data : List ℚ),
      ∃ p, compute_fft process data = Except.ok p)
    ∧ (∀ real imag : List ℚ, real.length / 2 ≤ imag.length →
        (fft_shift real imag).isSome = true)
    ∧ (∀ data : List ℚ, (fft_shift_frequencies data).isSome = true) := by
  refine ⟨fun process data => ⟨_, rfl⟩, fun real imag h => ?_, fun data => ?_⟩
  · rw [fft_shift_eq h]; rfl
  · rw [fft_shift_frequencies_eq]; rfl

/-- Witness for C10 at a concrete in-range pair. -/
theorem fft_error_branches_unreachable_witness :
    (fft_shift ([1, 2, 3, 4] : List ℚ) [9, 8]).isSome = true :=
  fft_error_branches_unreachable.2.1 [1, 2, 3, 4] [9, 8] (by simp)

end FftRust
